import Mathlib

/-!
Shallow embedding of `DistanceSensorGate.ino` (distance-based gate controller).
Floating-point values are modelled as rationals; `unsigned long` millisecond
timestamps as naturals with explicit 32-bit wraparound subtraction where the
source subtracts unsigned values.
-/

set_option maxRecDepth 8000

namespace DistanceSensorGate

/-- Distance and smoothing parameters from the source. -/
def MIN_DISTANCE : ℚ := 2

def MAX_DISTANCE : ℚ := 400

def DISTANCE_ALPHA : ℚ := 25 / 100

/-- Gate (FSM) settings from the source. -/
def GATE_TRIGGER_DISTANCE : ℚ := 100

def GATE_TRIGGER_TIME : ℕ := 250

def GATE_RELEASE_DISTANCE : ℚ := 200

def GATE_RELEASE_TIME : ℕ := 1000

/-- LED fade step per loop iteration. -/
def LED_FADE_STEP : ℤ := 5

/-- Serial print interval in frames. -/
def FRAME_INTERVAL : ℕ := 20

/-- Arduino `constrain(amt, low, high)`: `(amt<low)?low:((amt>high)?high:amt)`. -/
def constrain {α : Type} [LinearOrder α] (amt low high : α) : α :=
  if amt < low then low else if high < amt then high else amt

/-- The four FSM states of the gate, `enum GateState`. -/
inductive GateState : Type
  | IDLE
  | TRIGGERING
  | TRIGGERED
  | RELEASING
  deriving DecidableEq, Repr, Fintype

open GateState

/-- `readUltrasonic`, as a function of the pulse duration returned by
`pulseIn` (0 on timeout): `(dur == 0) ? MAX_DISTANCE : (dur * 0.0343) / 2.0`. -/
def readUltrasonic (dur : ℕ) : ℚ :=
  if dur = 0 then MAX_DISTANCE else (dur * (343 / 10000)) / 2

/-- `smoothDistance` (EMA), as a function of the persisted `smoothedDistance`
and the new raw reading:
`DISTANCE_ALPHA * newDist + (1 - DISTANCE_ALPHA) * smoothedDistance`. -/
def smoothDistance (smoothedDistance newDist : ℚ) : ℚ :=
  DISTANCE_ALPHA * newDist + (1 - DISTANCE_ALPHA) * smoothedDistance

/-- The seeding of `smoothedDistance` in `setup()`:
`constrain(initialReading, MIN_DISTANCE, MAX_DISTANCE)`. -/
def initialSmoothed (initialReading : ℚ) : ℚ :=
  constrain initialReading MIN_DISTANCE MAX_DISTANCE

/-- Subtraction of `unsigned long` (32-bit) values: `(a - b) mod 2^32`.
Models the source's `now - stateStartTime`. -/
def usub32 (a b : ℕ) : ℕ :=
  (a % 2 ^ 32 + (2 ^ 32 - b % 2 ^ 32)) % 2 ^ 32

/-- The state persisted by the gate FSM: `gateState` and `stateStartTime`. -/
structure GateSM : Type where
  gateState : GateState
  stateStartTime : ℕ
  deriving DecidableEq, Repr

/-- `updateGateState`, as a function of the persisted FSM state, the current
`smoothedDistance` and `now = millis()`.  Mirrors the `switch` statement of
the source; the returned structure carries the updated `gateState` and
`stateStartTime`. -/
def updateGateState (sm : GateSM) (smoothedDistance : ℚ) (now : ℕ) : GateSM :=
  match sm.gateState with
  | IDLE =>
      if smoothedDistance < GATE_TRIGGER_DISTANCE then ⟨TRIGGERING, now⟩ else sm
  | TRIGGERING =>
      if smoothedDistance < GATE_TRIGGER_DISTANCE then
        if GATE_TRIGGER_TIME ≤ usub32 now sm.stateStartTime then
          ⟨TRIGGERED, sm.stateStartTime⟩
        else sm
      else ⟨IDLE, sm.stateStartTime⟩
  | TRIGGERED =>
      if GATE_RELEASE_DISTANCE < smoothedDistance then ⟨RELEASING, now⟩ else sm
  | RELEASING =>
      if GATE_RELEASE_DISTANCE < smoothedDistance then
        if GATE_RELEASE_TIME ≤ usub32 now sm.stateStartTime then
          ⟨IDLE, sm.stateStartTime⟩
        else sm
      else ⟨TRIGGERED, sm.stateStartTime⟩

/-- The target brightness computed in `updateLED`:
`(gateState == TRIGGERED || gateState == RELEASING) ? 255 : 0`. -/
def ledTarget (gateState : GateState) : ℤ :=
  if gateState = TRIGGERED ∨ gateState = RELEASING then 255 else 0

/-- `updateLED`, as a function of the current gate state and the persisted
`ledBrightness`; returns the new brightness (also the value written to the
LED pin). -/
def updateLED (gateState : GateState) (ledBrightness : ℤ) : ℤ :=
  let target := ledTarget gateState
  let ledBrightnessChange :=
    if ledBrightness < target then LED_FADE_STEP else -LED_FADE_STEP
  constrain (ledBrightness + ledBrightnessChange) 0 255

/-- Brightness after `n` loop iterations of a sustained TRIGGERED state,
starting from `ledBrightness = 0`. -/
def ledIter : ℕ → ℤ
  | 0 => 0
  | n + 1 => updateLED TRIGGERED (ledIter n)

/-- `beepTriggered`: `tone(PIEZO_PIN, 1000, 200)` — frequency and duration. -/
def beepTriggered : ℕ × ℕ := (1000, 200)

/-- `beepReleased`: `tone(PIEZO_PIN, 500, 200)` — frequency and duration. -/
def beepReleased : ℕ × ℕ := (500, 200)

/-- `beepOnGateStateChange`, as a function of the updated `gateState` and the
snapshot `prevGateState`; returns the tone emitted this tick, if any. -/
def beepOnGateStateChange (gateState prevGateState : GateState) :
    Option (ℕ × ℕ) :=
  if gateState = prevGateState then none
  else
    match gateState with
    | TRIGGERED =>
        if prevGateState ≠ RELEASING then some beepTriggered else none
    | IDLE =>
        if prevGateState = TRIGGERED ∨ prevGateState = RELEASING then
          some beepReleased
        else none
    | _ => none

/-- All mutable globals persisted across loop iterations. -/
structure Controller : Type where
  distance : ℚ
  smoothedDistance : ℚ
  gate : GateSM
  ledBrightness : ℤ
  prevGateState : GateState
  frameCounter : ℕ
  deriving DecidableEq, Repr

/-- Observable output of one loop iteration: the tone handed to `tone()` (if
any), the brightness written by `analogWrite`, and whether debug information
was printed. -/
structure TickOutput : Type where
  tone : Option (ℕ × ℕ)
  ledWrite : ℤ
  printed : Bool
  deriving DecidableEq, Repr

/-- One iteration of `loop()`, as a function of the persisted globals, the
pulse duration read by the sensor this tick and `now = millis()`. -/
def loopTick (c : Controller) (dur now : ℕ) : Controller × TickOutput :=
  let distance := readUltrasonic dur
  let smoothed := smoothDistance c.smoothedDistance distance
  let prev := c.gate.gateState
  let gate' := updateGateState c.gate smoothed now
  let led' := updateLED gate'.gateState c.ledBrightness
  let toneOut := beepOnGateStateChange gate'.gateState prev
  let its := decide (gate'.gateState ≠ prev) || decide (FRAME_INTERVAL ≤ c.frameCounter)
  let fc' := (if its then 0 else c.frameCounter) + 1
  (⟨distance, smoothed, gate', led', prev, fc'⟩, ⟨toneOut, led', its⟩)

/-- Transcription of the transition table of the specification (section 4.2),
written from the spec's words for comparison with `updateGateState`:
each row's condition guards its next state, and StateEnteredAt is recorded
exactly on the Idle-to-Triggering and Triggered-to-Releasing rows. -/
def specGateStep (sm : GateSM) (d : ℚ) (now : ℕ) : GateSM :=
  match sm.gateState with
  | IDLE =>
      if d < GATE_TRIGGER_DISTANCE then ⟨TRIGGERING, now⟩
      else ⟨IDLE, sm.stateStartTime⟩
  | TRIGGERING =>
      if d < GATE_TRIGGER_DISTANCE ∧ GATE_TRIGGER_TIME ≤ now - sm.stateStartTime
      then ⟨TRIGGERED, sm.stateStartTime⟩
      else if d < GATE_TRIGGER_DISTANCE then ⟨TRIGGERING, sm.stateStartTime⟩
      else ⟨IDLE, sm.stateStartTime⟩
  | TRIGGERED =>
      if GATE_RELEASE_DISTANCE < d then ⟨RELEASING, now⟩
      else ⟨TRIGGERED, sm.stateStartTime⟩
  | RELEASING =>
      if GATE_RELEASE_DISTANCE < d ∧ GATE_RELEASE_TIME ≤ now - sm.stateStartTime
      then ⟨IDLE, sm.stateStartTime⟩
      else if GATE_RELEASE_DISTANCE < d then ⟨RELEASING, sm.stateStartTime⟩
      else ⟨TRIGGERED, sm.stateStartTime⟩

/-- Run the FSM over a list of ticks, each a pair `(now, smoothedDistance)`. -/
def runGate (sm : GateSM) (ticks : List (ℕ × ℚ)) : GateSM :=
  ticks.foldl (fun s t => updateGateState s t.2 t.1) sm

/-- The successive FSM states produced while running over a list of ticks. -/
def gateTrace (sm : GateSM) : List (ℕ × ℚ) → List GateSM
  | [] => []
  | t :: ts =>
      let s' := updateGateState sm t.2 t.1
      s' :: gateTrace s' ts

/-! ### Helper lemmas -/

/-- On a monotone clock with no wraparound between the two samples, the 32-bit
unsigned subtraction agrees with truncated natural subtraction. -/
theorem usub32_eq_sub {a b : ℕ} (hba : b ≤ a) (ha : a < 2 ^ 32) :
    usub32 a b = a - b := by
  have hb : b < 2 ^ 32 := lt_of_le_of_lt hba ha
  unfold usub32
  rw [Nat.mod_eq_of_lt ha, Nat.mod_eq_of_lt hb]
  have h : a + (2 ^ 32 - b) = (a - b) + 2 ^ 32 := by omega
  rw [h, Nat.add_mod_right, Nat.mod_eq_of_lt (by omega)]

/-- One `updateLED` tick: toward-target step with clamp when off target, and a
step down (clamped at 0) when already at the target. -/
theorem updateLED_moves (s : GateState) (led : ℤ) (h0 : 0 ≤ led)
    (h255 : led ≤ 255) :
    (led < ledTarget s →
      updateLED s led = min (led + LED_FADE_STEP) (ledTarget s)) ∧
    (ledTarget s < led →
      updateLED s led = max (led - LED_FADE_STEP) (ledTarget s)) ∧
    (led = ledTarget s → updateLED s led = max (led - LED_FADE_STEP) 0) := by
  have ht : ledTarget s = 0 ∨ ledTarget s = 255 := by
    cases s <;> simp [ledTarget]
  simp only [updateLED, LED_FADE_STEP, constrain]
  rcases ht with ht | ht <;> rw [ht] <;>
    refine ⟨fun h => ?_, fun h => ?_, fun h => ?_⟩ <;> split_ifs <;> omega

/-- The brightness written by `updateLED` always lies in [0, 255]. -/
theorem updateLED_mem_Icc (s : GateState) (led : ℤ) :
    0 ≤ updateLED s led ∧ updateLED s led ≤ 255 := by
  simp only [updateLED, LED_FADE_STEP, constrain]
  split_ifs <;> omega

/-- The fade sequence from 0 under sustained TRIGGERED stays in [0, 255]. -/
theorem ledIter_bounds (n : ℕ) : 0 ≤ ledIter n ∧ ledIter n ≤ 255 := by
  cases n with
  | zero => exact ⟨le_refl 0, by decide⟩
  | succ k => exact updateLED_mem_Icc TRIGGERED (ledIter k)

/-- After reaching 255 at tick 51, the fade sequence alternates 255, 250. -/
theorem ledIter_alternates (n : ℕ) :
    ledIter (51 + n) = if n % 2 = 0 then 255 else 250 := by
  induction n with
  | zero => decide
  | succ k ih =>
      have hstep : ledIter (51 + (k + 1)) =
          updateLED TRIGGERED (ledIter (51 + k)) := by
        rw [show 51 + (k + 1) = (51 + k) + 1 from by omega]
        rfl
      rw [hstep, ih]
      by_cases hk : k % 2 = 0
      · rw [if_pos hk, if_neg (by omega : ¬(k + 1) % 2 = 0)]
        decide
      · rw [if_neg hk, if_pos (by omega : (k + 1) % 2 = 0)]
        decide

theorem runGate_cons (sm : GateSM) (t : ℕ × ℚ) (ts : List (ℕ × ℚ)) :
    runGate sm (t :: ts) = runGate (updateGateState sm t.2 t.1) ts := rfl

theorem gateTrace_cons (sm : GateSM) (t : ℕ × ℚ) (ts : List (ℕ × ℚ)) :
    gateTrace sm (t :: ts) =
      updateGateState sm t.2 t.1 ::
        gateTrace (updateGateState sm t.2 t.1) ts := rfl

theorem runGate_append (sm : GateSM) (xs ys : List (ℕ × ℚ)) :
    runGate sm (xs ++ ys) = runGate (runGate sm xs) ys := by
  simp [runGate, List.foldl_append]

theorem gateTrace_append (sm : GateSM) (xs ys : List (ℕ × ℚ)) :
    gateTrace sm (xs ++ ys) =
      gateTrace sm xs ++ gateTrace (runGate sm xs) ys := by
  induction xs generalizing sm with
  | nil => rfl
  | cons t ts ih =>
      simp only [List.cons_append, gateTrace, runGate_cons, List.append_eq]
      rw [ih]

/-- While every tick reads at or beyond the trigger distance, the FSM holds in
IDLE with its timestamp untouched. -/
theorem idle_hold (ts : List (ℕ × ℚ)) (st : ℕ)
    (h : ∀ t ∈ ts, GATE_TRIGGER_DISTANCE ≤ t.2) :
    runGate ⟨IDLE, st⟩ ts = ⟨IDLE, st⟩ ∧
      ∀ s ∈ gateTrace ⟨IDLE, st⟩ ts, s = ⟨IDLE, st⟩ := by
  induction ts with
  | nil => exact ⟨rfl, by simp [gateTrace]⟩
  | cons t ts ih =>
      have ht := h t (List.mem_cons_self t ts)
      have hstep : updateGateState ⟨IDLE, st⟩ t.2 t.1 = ⟨IDLE, st⟩ := by
        simp [updateGateState, not_lt.mpr ht]
      have ihr := ih fun u hu => h u (List.mem_cons_of_mem t hu)
      refine ⟨?_, ?_⟩
      · rw [runGate_cons, hstep]
        exact ihr.1
      · intro s hs
        rw [gateTrace, hstep] at hs
        rcases List.mem_cons.mp hs with hs | hs
        · exact hs
        · exact ihr.2 s hs

/-- While every tick reads inside the trigger distance but the dwell time has
not yet elapsed since `t0` (on a monotone, non-wrapping clock), the FSM holds
in TRIGGERING with timestamp `t0`. -/
theorem triggering_hold (ts : List (ℕ × ℚ)) (t0 : ℕ)
    (h : ∀ t ∈ ts, t.2 < GATE_TRIGGER_DISTANCE ∧ t0 ≤ t.1 ∧
      t.1 - t0 < GATE_TRIGGER_TIME ∧ t.1 < 2 ^ 32) :
    runGate ⟨TRIGGERING, t0⟩ ts = ⟨TRIGGERING, t0⟩ ∧
      ∀ s ∈ gateTrace ⟨TRIGGERING, t0⟩ ts, s = ⟨TRIGGERING, t0⟩ := by
  induction ts with
  | nil => exact ⟨rfl, by simp [gateTrace]⟩
  | cons t ts ih =>
      obtain ⟨hd, hle, hdw, hlt⟩ := h t (List.mem_cons_self t ts)
      have hstep : updateGateState ⟨TRIGGERING, t0⟩ t.2 t.1 =
          ⟨TRIGGERING, t0⟩ := by
        have husub : usub32 t.1 t0 = t.1 - t0 := usub32_eq_sub hle hlt
        simp [updateGateState, hd, husub, not_le.mpr hdw]
      have ihr := ih fun u hu => h u (List.mem_cons_of_mem t hu)
      refine ⟨?_, ?_⟩
      · rw [runGate_cons, hstep]
        exact ihr.1
      · intro s hs
        rw [gateTrace, hstep] at hs
        rcases List.mem_cons.mp hs with hs | hs
        · exact hs
        · exact ihr.2 s hs

/-! ### Claim theorems -/

/-- Claim C1: the single-tick transition function `updateGateState` matches the
specification's transition table exactly, including that StateEnteredAt is
written only on the Idle-to-Triggering and Triggered-to-Releasing transitions
and is unchanged otherwise (hypotheses: the millisecond clock is monotone and
has not wrapped since the recorded timestamp). -/
theorem updateGateState_matches_spec_table (sm : GateSM) (d : ℚ) (now : ℕ)
    (hst : sm.stateStartTime ≤ now) (hnow : now < 2 ^ 32) :
    updateGateState sm d now = specGateStep sm d now := by
  obtain ⟨g, st⟩ := sm
  have husub : usub32 now st = now - st := usub32_eq_sub hst hnow
  cases g <;>
    simp only [updateGateState, specGateStep, husub] <;>
    split_ifs <;> first | rfl | tauto

/-- Witness for C1 at a concrete input. -/
theorem updateGateState_matches_spec_table_witness :
    updateGateState ⟨IDLE, 0⟩ 50 5 = specGateStep ⟨IDLE, 0⟩ 50 5 :=
  updateGateState_matches_spec_table ⟨IDLE, 0⟩ 50 5 (by decide) (by decide)

/-- Claim C2: the signal driver emits nothing when the state is unchanged,
emits the enter tone (1000 Hz, 200 ms) exactly when the new state is TRIGGERED
and the previous state was not RELEASING, emits the exit tone (500 Hz, 200 ms)
exactly when the new state is IDLE and the previous state was TRIGGERED or
RELEASING, and emits at most one tone per tick. -/
theorem beepOnGateStateChange_edge_rules (cur prev : GateState) :
    (cur = prev → beepOnGateStateChange cur prev = none) ∧
    (beepOnGateStateChange cur prev = some (1000, 200) ↔
      cur ≠ prev ∧ cur = TRIGGERED ∧ prev ≠ RELEASING) ∧
    (beepOnGateStateChange cur prev = some (500, 200) ↔
      cur ≠ prev ∧ cur = IDLE ∧ (prev = TRIGGERED ∨ prev = RELEASING)) ∧
    (beepOnGateStateChange cur prev = none ∨
      beepOnGateStateChange cur prev = some (1000, 200) ∨
      beepOnGateStateChange cur prev = some (500, 200)) := by
  cases cur <;> cases prev <;> decide

/-- Witness for C2 at a concrete input. -/
theorem beepOnGateStateChange_edge_rules_witness :
    beepOnGateStateChange TRIGGERED TRIGGERED = none :=
  (beepOnGateStateChange_edge_rules TRIGGERED TRIGGERED).1 rfl

/-- Counterexample to claim C3 as stated: under a sustained TRIGGERED state the
target is 255 and the level reaches 255 at tick 51, but on the next tick the
level does not remain at the target: `updateLED` steps it down to 250. -/
theorem updateLED_leaves_target :
    ledTarget TRIGGERED = 255 ∧ ledIter 51 = 255 ∧ ledIter 52 = 250 ∧
      updateLED TRIGGERED 255 = 250 := by decide

/-- Claim C3 (amended): whenever the level differs from the target, one
`updateLED` tick moves it toward the target by the fixed step with the clamp to
[0, 255] applied after stepping, never overshooting past the target on the tick
that reaches it; when the level already equals the target the code still steps
down by the step (clamped at 0).  Hence from level 0 under sustained TRIGGERED
the level equals 255 exactly after 51 ticks and is never greater than 255, but
on subsequent ticks it alternates between 255 and 250 rather than remaining at
the target. -/
theorem updateLED_fade_amended :
    (∀ (s : GateState) (led : ℤ), 0 ≤ led → led ≤ 255 →
      (led < ledTarget s →
        updateLED s led = min (led + LED_FADE_STEP) (ledTarget s)) ∧
      (ledTarget s < led →
        updateLED s led = max (led - LED_FADE_STEP) (ledTarget s)) ∧
      (led = ledTarget s → updateLED s led = max (led - LED_FADE_STEP) 0)) ∧
    ledIter 51 = 255 ∧
    (∀ n : ℕ, 0 ≤ ledIter n ∧ ledIter n ≤ 255) ∧
    (∀ n : ℕ, ledIter (51 + n) = if n % 2 = 0 then 255 else 250) :=
  ⟨updateLED_moves, by decide, ledIter_bounds, ledIter_alternates⟩

/-- Witness for the amended C3 at a concrete input. -/
theorem updateLED_fade_amended_witness :
    updateLED TRIGGERED 10 = min (10 + LED_FADE_STEP) (ledTarget TRIGGERED) :=
  (updateLED_fade_amended.1 TRIGGERED 10 (by decide) (by decide)).1 (by decide)

/-- Claim C4: the indicator target brightness is 255 exactly on TRIGGERED and
RELEASING, and 0 exactly on IDLE and TRIGGERING. -/
theorem ledTarget_rule (s : GateState) :
    (ledTarget s = 255 ↔ (s = TRIGGERED ∨ s = RELEASING)) ∧
    (ledTarget s = 0 ↔ (s = IDLE ∨ s = TRIGGERING)) := by
  cases s <;> decide

/-- Claim C5: the distance filter is the pure convex combination
`new = α · raw + (1 − α) · previous` with fixed α = 1/4, total on all rational
inputs, and the startup seed is the first raw reading clamped to
[MIN_DISTANCE, MAX_DISTANCE]. -/
theorem smoothDistance_convex_seed :
    (∀ prev raw : ℚ,
      smoothDistance prev raw = (1 / 4) * raw + (1 - 1 / 4) * prev) ∧
    (∀ init : ℚ,
      initialSmoothed init = max MIN_DISTANCE (min init MAX_DISTANCE) ∧
      MIN_DISTANCE ≤ initialSmoothed init ∧
      initialSmoothed init ≤ MAX_DISTANCE) := by
  constructor
  · intro prev raw
    unfold smoothDistance DISTANCE_ALPHA
    norm_num
  · intro init
    unfold initialSmoothed constrain MIN_DISTANCE MAX_DISTANCE
    simp only [max_def, min_def]
    split_ifs <;> exact ⟨by linarith, by linarith, by linarith⟩

/-- Claim C6: sensor acquisition returns the MAX_DISTANCE sentinel exactly when
the pulse duration reads 0, otherwise returns duration · 0.0343 / 2; the
sentinel is fed to the filter and the state machine exactly like a genuine
reading of MAX_DISTANCE. -/
theorem readUltrasonic_sentinel (dur : ℕ) :
    (readUltrasonic dur = MAX_DISTANCE ↔ dur = 0) ∧
    (dur ≠ 0 → readUltrasonic dur = (dur : ℚ) * (343 / 10000) / 2) ∧
    (∀ prev : ℚ,
      smoothDistance prev (readUltrasonic 0) = smoothDistance prev MAX_DISTANCE) ∧
    (∀ (sm : GateSM) (now : ℕ),
      updateGateState sm (readUltrasonic 0) now =
        updateGateState sm MAX_DISTANCE now) := by
  refine ⟨⟨fun h => ?_, fun h => by simp [readUltrasonic, h]⟩,
    fun h => by simp [readUltrasonic, h], fun prev => rfl, fun sm now => rfl⟩
  by_contra hdur
  rw [readUltrasonic, if_neg hdur, MAX_DISTANCE] at h
  have h2 : (dur : ℚ) * 343 = 8000000 := by
    field_simp at h
    linarith
  have h3 : dur * 343 = 8000000 := by exact_mod_cast h2
  omega

/-- Witness for C6 at a concrete input. -/
theorem readUltrasonic_sentinel_witness :
    readUltrasonic 100 = (100 : ℚ) * (343 / 10000) / 2 :=
  (readUltrasonic_sentinel 100).2.1 (by decide)

/-- Claim C7: if the smoothed distance stays at or above the trigger distance,
dips below it for a contiguous interval in which every tick is within
GATE_TRIGGER_TIME of the first dip tick, and then returns at or above the
trigger distance, a machine started in IDLE never reaches TRIGGERED during or
after the dip: it goes IDLE, then TRIGGERING for the dip, then back to IDLE. -/
theorem short_dip_never_triggers
    (pre dip post : List (ℕ × ℚ)) (st0 : ℕ) (t0 : ℕ × ℚ)
    (hpre : ∀ t ∈ pre, GATE_TRIGGER_DISTANCE ≤ t.2)
    (hdip : ∀ t ∈ t0 :: dip, t.2 < GATE_TRIGGER_DISTANCE ∧ t0.1 ≤ t.1 ∧
      t.1 - t0.1 < GATE_TRIGGER_TIME ∧ t.1 < 2 ^ 32)
    (hpost : ∀ t ∈ post, GATE_TRIGGER_DISTANCE ≤ t.2)
    (hpostne : post ≠ []) :
    (∀ s ∈ gateTrace ⟨IDLE, st0⟩ (pre ++ (t0 :: dip) ++ post),
      s.gateState ≠ TRIGGERED) ∧
    (runGate ⟨IDLE, st0⟩ (pre ++ (t0 :: dip) ++ post)).gateState = IDLE := by
  obtain ⟨p, ps, rfl⟩ : ∃ p ps, post = p :: ps := by
    cases post with
    | nil => exact absurd rfl hpostne
    | cons p ps => exact ⟨p, ps, rfl⟩
  have hIdlePre := idle_hold pre st0 hpre
  have ht0 := hdip t0 (List.mem_cons_self t0 dip)
  have hstep0 : updateGateState ⟨IDLE, st0⟩ t0.2 t0.1 = ⟨TRIGGERING, t0.1⟩ := by
    simp [updateGateState, ht0.1]
  have hTrig := triggering_hold dip t0.1
    (fun t ht => hdip t (List.mem_cons_of_mem t0 ht))
  have hp := hpost p (List.mem_cons_self p ps)
  have hstepP : updateGateState ⟨TRIGGERING, t0.1⟩ p.2 p.1 = ⟨IDLE, t0.1⟩ := by
    simp [updateGateState, not_lt.mpr hp]
  have hIdlePost := idle_hold ps t0.1
    (fun t ht => hpost t (List.mem_cons_of_mem p ht))
  have hrun1 : runGate ⟨IDLE, st0⟩ pre = ⟨IDLE, st0⟩ := hIdlePre.1
  have hrun2 : runGate ⟨IDLE, st0⟩ (pre ++ (t0 :: dip)) =
      ⟨TRIGGERING, t0.1⟩ := by
    rw [runGate_append, hrun1, runGate_cons, hstep0, hTrig.1]
  constructor
  · intro s hs
    rw [gateTrace_append, gateTrace_append, hrun1, hrun2] at hs
    rcases List.mem_append.mp hs with hs1 | hs2
    · rcases List.mem_append.mp hs1 with hsa | hsb
      · rw [hIdlePre.2 s hsa]
        simp
      · rw [gateTrace_cons, hstep0] at hsb
        rcases List.mem_cons.mp hsb with hsb | hsb
        · rw [hsb]
          simp
        · rw [hTrig.2 s hsb]
          simp
    · rw [gateTrace_cons, hstepP] at hs2
      rcases List.mem_cons.mp hs2 with hs2 | hs2
      · rw [hs2]
        simp
      · rw [hIdlePost.2 s hs2]
        simp
  · rw [runGate_append, hrun2, runGate_cons, hstepP, hIdlePost.1]

/-- Witness for C7 at a concrete input: one in-range tick, a two-tick dip of
90 ms below the trigger distance, and two in-range ticks after it. -/
theorem short_dip_never_triggers_witness :
    (runGate ⟨IDLE, 0⟩
      ([((0 : ℕ), (300 : ℚ))] ++
        (((10 : ℕ), (50 : ℚ)) :: [((20 : ℕ), (60 : ℚ))]) ++
        [((30 : ℕ), (300 : ℚ)), ((40 : ℕ), (400 : ℚ))])).gateState = IDLE :=
  (short_dip_never_triggers [(0, 300)] [(20, 60)] [(30, 300), (40, 400)] 0
    (10, 50) (by decide) (by decide) (by decide) (by decide)).2

/-- Counterexample to claim C8 as stated: a 58-microsecond echo pulse yields a
raw sample of 0.9947 cm, below MIN_DISTANCE, so a sample consumed by a tick
need not lie within [MIN_DISTANCE, MAX_DISTANCE]. -/
theorem rawSample_out_of_range :
    ¬(MIN_DISTANCE ≤ readUltrasonic 58 ∧ readUltrasonic 58 ≤ MAX_DISTANCE) := by
  intro h
  have h1 := h.1
  norm_num [readUltrasonic, MIN_DISTANCE, MAX_DISTANCE] at h1

/-- Claim C8 (amended): the raw sample consumed by a tick is fed to the filter
unclamped; it equals the in-range sentinel MAX_DISTANCE on timeout, and for a
nonzero pulse duration it lies within [MIN_DISTANCE, MAX_DISTANCE] exactly when
the duration lies in [117, 23323] microseconds — shorter or longer pulses
produce out-of-range samples.  Only the startup seed is clamped to the range. -/
theorem rawSample_range_characterization :
    (∀ (c : Controller) (dur now : ℕ),
      (loopTick c dur now).1.smoothedDistance =
        smoothDistance c.smoothedDistance (readUltrasonic dur)) ∧
    (∀ dur : ℕ,
      (dur = 0 →
        readUltrasonic dur = MAX_DISTANCE ∧
        MIN_DISTANCE ≤ readUltrasonic dur ∧
        readUltrasonic dur ≤ MAX_DISTANCE) ∧
      (dur ≠ 0 →
        ((MIN_DISTANCE ≤ readUltrasonic dur ∧
          readUltrasonic dur ≤ MAX_DISTANCE) ↔
          (117 ≤ dur ∧ dur ≤ 23323)))) ∧
    (∀ init : ℚ,
      MIN_DISTANCE ≤ initialSmoothed init ∧
      initialSmoothed init ≤ MAX_DISTANCE) := by
  refine ⟨fun c dur now => rfl, fun dur => ⟨fun h => ?_, fun h => ?_⟩,
    fun init => ?_⟩
  · subst h
    norm_num [readUltrasonic, MIN_DISTANCE, MAX_DISTANCE]
  · rw [readUltrasonic, if_neg h, MIN_DISTANCE, MAX_DISTANCE]
    have hexp : (dur : ℚ) * (343 / 10000) / 2 = 343 * dur / 20000 := by ring
    rw [hexp, le_div_iff₀ (by norm_num : (0 : ℚ) < 20000),
      div_le_iff₀ (by norm_num : (0 : ℚ) < 20000)]
    constructor
    · rintro ⟨h1, h2⟩
      have h1q : (40000 : ℚ) ≤ 343 * (dur : ℚ) := by linarith
      have h2q : (343 : ℚ) * (dur : ℚ) ≤ 8000000 := by linarith
      have h1n : 40000 ≤ 343 * dur := by exact_mod_cast h1q
      have h2n : 343 * dur ≤ 8000000 := by exact_mod_cast h2q
      omega
    · rintro ⟨h1, h2⟩
      have h1q : (117 : ℚ) ≤ dur := by exact_mod_cast h1
      have h2q : (dur : ℚ) ≤ 23323 := by exact_mod_cast h2
      constructor <;> linarith
  · unfold initialSmoothed constrain MIN_DISTANCE MAX_DISTANCE
    split_ifs <;> constructor <;> linarith

/-- Witness for the amended C8 at a concrete input. -/
theorem rawSample_range_characterization_witness :
    (MIN_DISTANCE ≤ readUltrasonic 117 ∧ readUltrasonic 117 ≤ MAX_DISTANCE) :=
  ((rawSample_range_characterization.2.1 117).2 (by decide)).mpr
    ⟨by decide, by decide⟩

/-- Claim C9: per tick, debug information is printed iff the gate state changed
this tick or the frame counter has reached FRAME_INTERVAL; whenever it is
printed the counter is reset (to 0, then incremented at end of tick), and
otherwise the counter just increments. -/
theorem loop_diagnostics_dual_trigger (c : Controller) (dur now : ℕ) :
    ((loopTick c dur now).2.printed = true ↔
      ((loopTick c dur now).1.gate.gateState ≠ c.gate.gateState ∨
        FRAME_INTERVAL ≤ c.frameCounter)) ∧
    ((loopTick c dur now).2.printed = true →
      (loopTick c dur now).1.frameCounter = 0 + 1) ∧
    ((loopTick c dur now).2.printed = false →
      (loopTick c dur now).1.frameCounter = c.frameCounter + 1) := by
  by_cases h1 : (updateGateState c.gate
      (smoothDistance c.smoothedDistance (readUltrasonic dur)) now).gateState =
      c.gate.gateState <;>
    by_cases h2 : FRAME_INTERVAL ≤ c.frameCounter <;>
      simp [loopTick, h1, h2]

/-- Witness for C9 at a concrete input. -/
theorem loop_diagnostics_dual_trigger_witness :
    (loopTick ⟨400, 400, ⟨IDLE, 0⟩, 0, IDLE, 20⟩ 0 0).1.frameCounter = 0 + 1 :=
  (loop_diagnostics_dual_trigger ⟨400, 400, ⟨IDLE, 0⟩, 0, IDLE, 20⟩ 0 0).2.1
    (by simp [loopTick, FRAME_INTERVAL])

/-- Claim C10: from TRIGGERED the next state after one tick is always TRIGGERED
or RELEASING (never IDLE directly), and consequently every exit tone emitted on
an edge produced by the step function occurs on a RELEASING-to-IDLE edge. -/
theorem triggered_never_directly_idle (prev : GateState) (st : ℕ) (d : ℚ)
    (now : ℕ) :
    (prev = TRIGGERED →
      ((updateGateState ⟨prev, st⟩ d now).gateState = TRIGGERED ∨
        (updateGateState ⟨prev, st⟩ d now).gateState = RELEASING)) ∧
    (beepOnGateStateChange (updateGateState ⟨prev, st⟩ d now).gateState prev =
        some (500, 200) →
      prev = RELEASING ∧
        (updateGateState ⟨prev, st⟩ d now).gateState = IDLE) := by
  cases prev <;> simp only [updateGateState] <;> split_ifs <;>
    simp [beepOnGateStateChange, beepTriggered, beepReleased]

/-- Witness for C10 at a concrete input. -/
theorem triggered_never_directly_idle_witness :
    ((updateGateState ⟨TRIGGERED, 0⟩ 300 5).gateState = TRIGGERED ∨
      (updateGateState ⟨TRIGGERED, 0⟩ 300 5).gateState = RELEASING) ∧
    (updateGateState ⟨RELEASING, 0⟩ 300 1000).gateState = IDLE :=
  ⟨(triggered_never_directly_idle TRIGGERED 0 300 5).1 rfl,
    ((triggered_never_directly_idle RELEASING 0 300 1000).2 (by decide)).2⟩

end DistanceSensorGate
